import Mathlib

/-!
Verification of the incident and evidence lifecycle logic of the ai_cctv_mobile
client.  The definitions below are shallow embeddings of the JavaScript source:
pure data records model the backend entities, and each screen-level handler is
translated into a function from its pre-state (and the outcome of the awaited
backend call) to its post-state.  JS `undefined`/`null` fields become `Option`,
JS string comparison becomes `String` equality, and JS truthiness of strings
and numbers is made explicit where the source relies on it.
-/

namespace AiCctv

/-- An incident record as the dashboards consume it: `status` is the string
enum (`pending` / `acknowledged`), duplicated by the boolean `acknowledged`
flag; `assigned_user_id` references the handling actor and `assigned_user`
models the embedded user object by its id; `description` is the free-text
tagging channel (`[VIEWER REPORT]`, `[SOS ALERT]`). -/
structure Incident where
  id : Nat
  camera_id : Option Nat
  description : Option String
  status : String
  acknowledged : Bool
  assigned_user_id : Option Nat
  assigned_user : Option Nat
  severity : String
  deriving DecidableEq, Repr

/-- A camera record; `admin_user_id` is the owning user
(`cameras.filter(c => Number(c.admin_user_id) === Number(user.id))`). -/
structure Camera where
  id : Nat
  admin_user_id : Nat
  deriving DecidableEq, Repr

/-- An evidence record from the evidence store screens. -/
structure Evidence where
  id : Nat
  incident_id : Nat
  file_path : String
  blockchain_tx_hash : Option String
  verification_status : Option String
  tamper_status : Option String
  deriving DecidableEq, Repr

/-- JS `s.startsWith(t)`, computed on the character sequences. -/
def strStartsWith (s t : String) : Bool :=
  t.data.isPrefixOf s.data

/-- JS `incident.description?.startsWith(tag)`: `false` when the description
is null/undefined. -/
def descStartsWith (inc : Incident) (tag : String) : Bool :=
  match inc.description with
  | some d => strStartsWith d tag
  | none => false

/-- JS truthiness of an optional string (`null`, `undefined` and `""` are
falsy). -/
def jsTruthyStr : Option String → Bool
  | none => false
  | some s => s != ""

/-- Occurrence of a pattern inside a character sequence. -/
def charListContains (s pat : List Char) : Bool :=
  if pat.isPrefixOf s then true
  else
    match s with
    | [] => false
    | _ :: t => charListContains t pat

/-- JS `s.includes(t)`: `t` occurs as a substring of `s` (the empty pattern
always matches). -/
def jsIncludes (s t : String) : Bool :=
  charListContains s.data t.data

/-! ### API layer (`src/hooks/useIncidents.js`)

`acknowledgeIncidentWithStatus(id, acknowledged)` issues
`PUT /incidents/{id}/acknowledge?acknowledged=...`; we model the request it
sends.  `acknowledgeIncident(id)` delegates with `acknowledged = true`. -/

/-- The payload of the acknowledge `PUT` request. -/
structure AckRequest where
  incidentId : Nat
  acknowledged : Bool
  deriving DecidableEq, Repr

/-- `acknowledgeIncidentWithStatus(id, acknowledged)` from
`src/hooks/useIncidents.js`: the request carries the given flag. -/
def acknowledgeIncidentWithStatus (id : Nat) (ack : Bool) : AckRequest :=
  ⟨id, ack⟩

/-- `acknowledgeIncident(id)` delegates to
`acknowledgeIncidentWithStatus(id, true)`. -/
def acknowledgeIncidentReq (id : Nat) : AckRequest :=
  acknowledgeIncidentWithStatus id true

/-! ### Admin acknowledgement screen (`src/screens/Acknowledgement.jsx`,
`AdminDashboardScreen`) -/

/-- The action button label in `renderIncidentItem`:
`acknowledged ? 'Revoke' : 'Acknowledge'` where
`acknowledged = item.status === 'acknowledged' || item.acknowledged === true`. -/
def adminAckLabel (inc : Incident) : String :=
  if inc.status = "acknowledged" ∨ inc.acknowledged = true then "Revoke"
  else "Acknowledge"

/-- Pressing the button always runs `acknowledge(item.id)`, which calls
`acknowledgeIncident(incidentId)`; the request it issues. -/
def adminAckAction (inc : Incident) : AckRequest :=
  acknowledgeIncidentReq inc.id

/-! ### Security role buckets (`src/screens/SecurityDashboardNew_v2.jsx` and
`getSOSAlerts` in `src/hooks/useIncidents.js`) -/

/-- `renderViewerReportsTab`:
`incidents.filter(i => i.description?.startsWith('[VIEWER REPORT]'))`. -/
def viewerReportsBucket (l : List Incident) : List Incident :=
  l.filter (fun i => descStartsWith i "[VIEWER REPORT]")

/-- `getSOSAlerts` fetches the full incident list and keeps
`inc.description?.startsWith('[SOS ALERT]')`. -/
def sosAlertsBucket (l : List Incident) : List Incident :=
  l.filter (fun i => descStartsWith i "[SOS ALERT]")

/-- `renderAssignedTab`:
`incidents.filter(i => userProfile?.id && i.assigned_user_id === userProfile.id)`;
the leading conjunct is JS truthiness of the actor id (0 is falsy). -/
def assignedBucket (l : List Incident) (actorId : Nat) : List Incident :=
  l.filter (fun i => actorId != 0 && i.assigned_user_id == some actorId)

/-! ### Viewer visibility filters -/

/-- `Number(inc.camera_id)` as used by the backup viewer dashboard
(`Number(null) = 0`). -/
def numCameraId (inc : Incident) : Nat :=
  inc.camera_id.getD 0

/-- `src/screens/ViewerDashboardClean_backup.jsx`: ids of cameras owned by the
current user. -/
def ownedCameraIds (cams : List Camera) (userId : Nat) : List Nat :=
  (cams.filter (fun c => c.admin_user_id == userId)).map (fun c => c.id)

/-- `fetchIncidents` in `src/screens/ViewerDashboardClean_backup.jsx`:
`allIncidents.filter(inc => ownedByUser || cameraId >= 29)`. -/
def backupViewerFilter (cams : List Camera) (userId : Nat)
    (l : List Incident) : List Incident :=
  l.filter (fun inc =>
    (ownedCameraIds cams userId).contains (numCameraId inc) ||
      decide (29 ≤ numCameraId inc))

/-- `fetchIncidents` in `src/unnamed/part_004` (`filteredList`): keep an SOS
alert embedding `User: <username>` for a non-empty username, drop
`[VIEWER REPORT]` incidents, keep everything else. -/
def part004ViewerFilter (username : String) (l : List Incident) : List Incident :=
  l.filter (fun inc =>
    if descStartsWith inc "[SOS ALERT]" && username != "" &&
        jsIncludes (inc.description.getD "") ("User: " ++ username) then true
    else if descStartsWith inc "[VIEWER REPORT]" then false
    else true)

/-- Modelled from the claim sentence only, for comparison with the two source
filters: visible = (camera owned or camera id at least the threshold) minus
`[VIEWER REPORT]` incidents, plus `[SOS ALERT]` incidents whose `User:` field
matches the viewer. -/
def claimedViewerVisible (cams : List Camera) (userId : Nat) (username : String)
    (threshold : Nat) (l : List Incident) : List Incident :=
  l.filter (fun inc =>
    (((ownedCameraIds cams userId).contains (numCameraId inc) ||
        decide (threshold ≤ numCameraId inc)) &&
      !(descStartsWith inc "[VIEWER REPORT]")) ||
    (descStartsWith inc "[SOS ALERT]" &&
      jsIncludes (inc.description.getD "") ("User: " ++ username)))

/-! ### Acknowledge handlers (optimistic update and rollback)

The awaited `acknowledgeIncident` call has three relevant outcomes: a success
response (`res.success`), a non-success response, and a thrown network error
(the `catch` branch). -/

/-- Outcome of the awaited backend acknowledge call. -/
inductive ApiOutcome where
  | ok
  | respFail
  | netError
  deriving DecidableEq, Repr

/-- The optimistic update in `acknowledge` of
`src/screens/SecurityDashboard.jsx` (lines 71-79): set
`acknowledged: true, status: 'acknowledged'` on the matching incident. -/
def ackOptimistic (l : List Incident) (incidentId : Nat) : List Incident :=
  l.map (fun inc =>
    if inc.id = incidentId then
      { inc with acknowledged := true, status := "acknowledged" }
    else inc)

/-- The revert in the same handler (both the non-success branch and the
`catch` branch): set `acknowledged: false, status: 'pending'`. -/
def ackRevert (l : List Incident) (incidentId : Nat) : List Incident :=
  l.map (fun inc =>
    if inc.id = incidentId then
      { inc with acknowledged := false, status := "pending" }
    else inc)

/-- `acknowledge(incidentId)` of `src/screens/SecurityDashboard.jsx` as a
state transformer on the incident list: optimistic update, then on a
non-success response or a network error the revert runs. -/
def securityAcknowledge (l : List Incident) (incidentId : Nat)
    (outcome : ApiOutcome) : List Incident :=
  let optimistic := ackOptimistic l incidentId
  match outcome with
  | .ok => optimistic
  | .respFail => ackRevert optimistic incidentId
  | .netError => ackRevert optimistic incidentId

/-- The optimistic update in `handleAcknowledge` of `src/unnamed/part_000`:
additionally stamps `assigned_user_id`/`assigned_user` with the security
actor (`userProfile?.id` / `userProfile`, here modelled by its id). -/
def part000Optimistic (l : List Incident) (incidentId : Nat)
    (actorId : Option Nat) : List Incident :=
  l.map (fun inc =>
    if inc.id = incidentId then
      { inc with acknowledged := true, status := "acknowledged",
                 assigned_user_id := actorId, assigned_user := actorId }
    else inc)

/-- The revert in `handleAcknowledge` of `src/unnamed/part_000` (non-success
branch only): clear the flags and the assignment. -/
def part000Revert (l : List Incident) (incidentId : Nat) : List Incident :=
  l.map (fun inc =>
    if inc.id = incidentId then
      { inc with acknowledged := false, status := "pending",
                 assigned_user_id := none, assigned_user := none }
    else inc)

/-- `handleAcknowledge` of `src/unnamed/part_000` as a state transformer: the
revert runs only on a non-success response; the `catch` branch (network
error) merely alerts and leaves the optimistic state in place. -/
def part000HandleAcknowledge (l : List Incident) (incidentId : Nat)
    (actorId : Option Nat) (outcome : ApiOutcome) : List Incident :=
  let optimistic := part000Optimistic l incidentId actorId
  match outcome with
  | .ok => optimistic
  | .respFail => part000Revert optimistic incidentId
  | .netError => optimistic

/-! ### Acknowledged-merge during list refresh
(`fetchIncidents` in `src/screens/SecurityDashboard.jsx`, lines 26-37)

The `response.data.map` body reads and mutates the shared
`acknowledgedIncidentsRef` set as it walks the list, so it is embedded as a
left fold threading the set. -/

/-- One step of the merge: an incident in the acknowledged set is forced to
`acknowledged: true, status: 'acknowledged'`; an incident the backend reports
acknowledged is added to the set and passed through unchanged; anything else
passes through. -/
def mergeFetchStep (st : List Nat × List Incident) (inc : Incident) :
    List Nat × List Incident :=
  if st.1.contains inc.id then
    (st.1, st.2 ++ [{ inc with acknowledged := true, status := "acknowledged" }])
  else if inc.acknowledged || inc.status == "acknowledged" then
    (st.1 ++ [inc.id], st.2 ++ [inc])
  else
    (st.1, st.2 ++ [inc])

/-- The whole merge: returns the updated acknowledged set and the list handed
to `setIncidents`. -/
def mergeFetch (ackRef : List Nat) (data : List Incident) :
    List Nat × List Incident :=
  data.foldl mergeFetchStep (ackRef, [])

/-- Screen state relevant to overlapping refreshes: the persistent
`acknowledgedIncidentsRef` set and the displayed incident list. -/
structure FetchState where
  ackRef : List Nat
  display : List Incident
  deriving DecidableEq, Repr

/-- A fetch response resolving: its data is merged against the current set and
unconditionally displayed (`setIncidents(updatedData)`); there is no sequence
number and no staleness check. -/
def applyFetch (s : FetchState) (data : List Incident) : FetchState :=
  let r := mergeFetch s.ackRef data
  ⟨r.1, r.2⟩

/-! ### SOS single-fire (`src/screens/ViewerDashboardClean_backup.jsx` SOS
button and `handleSOS` in `src/unnamed/part_004`) -/

/-- The per-session SOS state of the backup viewer dashboard: the
`sosSentRef` latch, the `sosDisabled` state, and the number of SOS
submissions issued to the backend. -/
structure SOSSession where
  sosSent : Bool
  sosDisabled : Bool
  submissions : Nat
  deriving DecidableEq, Repr

/-- Fresh dashboard session. -/
def initialSOSSession : SOSSession :=
  ⟨false, false, 0⟩

/-- One confirmed SOS trigger in `ViewerDashboardClean_backup.jsx`: the
button exists only while `!sosDisabled && !sosSentRef.current`; its handler
sets both latches synchronously before awaiting `createIncident`, and only
submits when a camera id is available (otherwise it reports local success
without any network call). -/
def backupSOSTrigger (s : SOSSession) (cameraAvailable : Bool) : SOSSession :=
  if s.sosDisabled || s.sosSent then s
  else
    let s1 : SOSSession := { s with sosSent := true, sosDisabled := true }
    if cameraAvailable then { s1 with submissions := s1.submissions + 1 }
    else s1

/-- A session of the backup dashboard processing a list of confirmed SOS
triggers (each event records whether a camera id was available). -/
def backupSOSRun (events : List Bool) : SOSSession :=
  events.foldl backupSOSTrigger initialSOSSession

/-- One invocation of `handleSOS` in `src/unnamed/part_004`: no latch is
consulted or set; every invocation awaits `sendSOSAlert`, which posts a new
incident. -/
def part004SOSTrigger (s : SOSSession) : SOSSession :=
  { s with submissions := s.submissions + 1 }

/-! ### Bulk assignment dispatcher (`submit` in `GrantAccessScreen`,
`src/screens/ViewerDashboardClean_backup.jsx`) -/

/-- The per-incident result returned by `notifyIncident` (or synthesised in
the per-incident `catch`). -/
structure NotifyResult where
  success : Bool
  message : String
  deriving DecidableEq, Repr

/-- What `submit` does after the awaited fan-out: either an input-validation
alert, or a report carrying the raw results, the succeeded results, the
failed results, and whether the flow counts as a success. -/
inductive SubmitOutcome where
  | needIncidents
  | needUser
  | report (results succeeded failed : List NotifyResult) (overallSuccess : Bool)
  deriving DecidableEq, Repr

/-- `Object.keys(selectedIncidents).filter(k => selectedIncidents[k])`:
the ids toggled on. -/
def selectedIds (sel : List (Nat × Bool)) : List Nat :=
  (sel.filter (fun p => p.2)).map (fun p => p.1)

/-- `submit` in `GrantAccessScreen`: empty selection and missing user are
rejected first; then one `notifyIncident` call is issued per id
(`Promise.all`), the results are split into `succeeded`/`failed`, and the
flow succeeds exactly when `succeeded.length > 0`. -/
def grantSubmit (sel : List (Nat × Bool)) (selectedUser : Option Nat)
    (notify : Nat → NotifyResult) : SubmitOutcome :=
  let incidentIds := selectedIds sel
  if incidentIds = [] then .needIncidents
  else
    match selectedUser with
    | none => .needUser
    | some _ =>
      let results := incidentIds.map notify
      let succeeded := results.filter (fun r => r.success)
      let failed := results.filter (fun r => !r.success)
      .report results succeeded failed (decide (0 < succeeded.length))

/-! ### Evidence verification gating and display
(`EvidenceStore` in `src/screens/SecurityDashboard.jsx`) -/

/-- Result of the role gate at the top of `handleVerifyEvidence`. -/
inductive VerifyGate where
  | permissionDenied
  | proceed
  deriving DecidableEq, Repr

/-- The gate: `security` is rejected outright, then anything that is neither
`admin` nor `viewer` (including a missing role) is rejected; only then does
the confirm dialog lead to the `verifyEvidence` network call. -/
def handleVerifyGate (userRole : Option String) : VerifyGate :=
  if userRole = some "security" then .permissionDenied
  else if ¬(userRole = some "admin" ∨ userRole = some "viewer") then
    .permissionDenied
  else .proceed

/-- Whether the handler ever reaches the `verifyEvidence` network call. -/
def verifyNetworkCalled (userRole : Option String) : Bool :=
  decide (handleVerifyGate userRole = .proceed)

/-- `canVerify` in `renderItem`: `userRole === 'admin' || userRole === 'viewer'`. -/
def canVerify (userRole : Option String) : Bool :=
  decide (userRole = some "admin") || decide (userRole = some "viewer")

/-- The verify button is rendered only for
`canVerify && item.blockchain_tx_hash` (JS truthiness of the hash). -/
def verifyButtonShown (userRole : Option String) (item : Evidence) : Bool :=
  canVerify userRole && jsTruthyStr item.blockchain_tx_hash

/-- The display states of `getVerificationBadge`. -/
inductive Badge where
  | notOnBlockchain
  | verified
  | tampered
  | pending
  deriving DecidableEq, Repr

/-- `getVerificationBadge`: a missing `blockchain_tx_hash` short-circuits to
the `Not on Blockchain` badge; otherwise the cached `verification_status`
picks the badge, defaulting to pending. -/
def getVerificationBadge (item : Evidence) : Badge :=
  if !(jsTruthyStr item.blockchain_tx_hash) then .notOnBlockchain
  else
    match item.verification_status with
    | some "VERIFIED" => .verified
    | some "TAMPERED" => .tampered
    | _ => .pending

/-! ### Evidence status precedence (`EvidenceStoreSecure` in
`src/screens/SecurityDashboard.jsx`) -/

/-- The local update after a verification completes
(`setEvidence(prev => prev.map(...))`): the observed status overwrites both
`tamper_status` and `verification_status` of the matching item. -/
def applySecureVerify (l : List Evidence) (evidenceId : Nat)
    (newStatus : String) : List Evidence :=
  l.map (fun ev =>
    if ev.id = evidenceId then
      { ev with tamper_status := some newStatus,
                verification_status := some newStatus }
    else ev)

/-- `fetchEvidence` on success: `setEvidence(response.data || [])` — the
displayed list is replaced wholesale by the server response; no local
verification result is merged back in. -/
def applyEvidenceFetch (_current server : List Evidence) : List Evidence :=
  server

/-! ### The status/acknowledged consistency invariant -/

/-- The data-model invariant: `status === 'acknowledged'` exactly when
`acknowledged === true`. -/
def ackConsistent (inc : Incident) : Prop :=
  inc.status = "acknowledged" ↔ inc.acknowledged = true

instance (inc : Incident) : Decidable (ackConsistent inc) := by
  unfold ackConsistent
  infer_instance

/-! ### Concrete sample data used by counterexamples and witnesses -/

/-- A plain pending incident. -/
def incC1 : Incident :=
  ⟨1, some 2, none, "pending", false, none, none, "high"⟩

/-- A pending viewer report assigned to security user 7. -/
def incC2 : Incident :=
  ⟨1, none, some "[VIEWER REPORT] broken door", "pending", false, some 7, some 7, "high"⟩

/-- A pending SOS alert assigned to security user 7. -/
def incC2s : Incident :=
  ⟨2, none, some "[SOS ALERT] help\n\nUser: alice", "pending", false, some 7, some 7, "critical"⟩

/-- A viewer report carried by an AI-worker camera (id 30). -/
def incC3a : Incident :=
  ⟨1, some 30, some "[VIEWER REPORT] broken door", "pending", false, none, none, "high"⟩

/-- An ordinary incident on a low-numbered, unowned camera. -/
def incC3b : Incident :=
  ⟨2, some 1, some "camera motion detected", "pending", false, none, none, "medium"⟩

/-- An evidence item that was never anchored on the blockchain. -/
def evC6 : Evidence :=
  ⟨3, 11, "img.jpg", none, some "PENDING", none⟩

/-- A pending evidence item anchored on the blockchain. -/
def evC7 : Evidence :=
  ⟨1, 10, "cap.jpg", some "0xabc", some "PENDING", some "PENDING"⟩

/-- `evC7` after a verification observed `TAMPERED`. -/
def evC7t : Evidence :=
  ⟨1, 10, "cap.jpg", some "0xabc", some "TAMPERED", some "TAMPERED"⟩

/-- A pending incident used by the stale-refresh scenario. -/
def incC9 : Incident :=
  ⟨5, some 3, none, "pending", false, none, none, "high"⟩

/-- A second pending incident used by the stale-refresh scenario. -/
def incC9b : Incident :=
  ⟨6, some 3, none, "pending", false, none, none, "low"⟩

/-- The notify outcome of the C5 scenario: incident 2 fails, the rest
succeed. -/
def notifyC5 : Nat → NotifyResult :=
  fun i => ⟨i != 2, "already reassigned"⟩

/-! ## Theorems -/

/-- A map that fixes every member of a list is the identity on it. -/
theorem mapSelfOfMem {α : Type} (l : List α) (f : α → α)
    (h : ∀ a ∈ l, f a = a) : l.map f = l := by
  induction l with
  | nil => rfl
  | cons a t ih =>
    simp only [List.map_cons]
    rw [h a (List.mem_cons_self a t),
      ih (fun b hb => h b (List.mem_cons_of_mem a hb))]

/-- Rolling back after the optimistic update restores any list whose matching
incidents were pending and unacknowledged (`SecurityDashboard.jsx`). -/
theorem securityAcknowledge_rollback (l : List Incident) (incidentId : Nat)
    (outcome : ApiOutcome) (hfail : outcome ≠ .ok)
    (hpre : ∀ inc ∈ l, inc.id = incidentId →
      inc.status = "pending" ∧ inc.acknowledged = false) :
    securityAcknowledge l incidentId outcome = l := by
  have hstep : securityAcknowledge l incidentId outcome =
      ackRevert (ackOptimistic l incidentId) incidentId := by
    cases outcome with
    | ok => exact absurd rfl hfail
    | respFail => rfl
    | netError => rfl
  rw [hstep]
  unfold ackRevert ackOptimistic
  rw [List.map_map]
  apply mapSelfOfMem
  intro a ha
  by_cases hid : a.id = incidentId
  · obtain ⟨h1, h2⟩ := hpre a ha hid
    cases a
    simp_all
  · simp [Function.comp, hid]

/-- The non-success-response rollback of `part_000`'s `handleAcknowledge`
restores any list whose matching incidents were pending, unacknowledged and
unassigned. -/
theorem part000_rollback_respFail (l : List Incident) (incidentId : Nat)
    (actorId : Option Nat)
    (hpre : ∀ inc ∈ l, inc.id = incidentId →
      inc.status = "pending" ∧ inc.acknowledged = false ∧
      inc.assigned_user_id = none ∧ inc.assigned_user = none) :
    part000HandleAcknowledge l incidentId actorId .respFail = l := by
  show part000Revert (part000Optimistic l incidentId actorId) incidentId = l
  unfold part000Revert part000Optimistic
  rw [List.map_map]
  apply mapSelfOfMem
  intro a ha
  by_cases hid : a.id = incidentId
  · obtain ⟨h1, h2, h3, h4⟩ := hpre a ha hid
    cases a
    simp_all
  · simp [Function.comp, hid]

/-- C1 counterexample: in `part_000`'s `handleAcknowledge`, a network error
(the `catch` branch) performs no rollback — after a failed acknowledge the
incident is left in the optimistic acknowledged state, not its pre-call
state. -/
theorem acknowledge_rollback_claim_false :
    part000HandleAcknowledge [incC1] 1 (some 7) .netError ≠ [incC1] ∧
    (part000HandleAcknowledge [incC1] 1 (some 7) .netError).map
      Incident.acknowledged = [true] := by
  constructor
  · decide
  · decide

/-- C1 amended: the rollback is a round-trip identity on failure only where
it runs — `SecurityDashboard.jsx`'s `acknowledge` reverts on both a
non-success response and a network error (its optimistic update never touches
the assignment), while `part_000`'s `handleAcknowledge` reverts (flags and
assignment) only on a non-success response, not on a network error — in both
cases provided the matching incidents were in the pre-transition state
`status='pending'`, `acknowledged=false` (and unassigned for `part_000`). -/
theorem acknowledge_rollback_on_failure (l : List Incident) (incidentId : Nat)
    (actorId : Option Nat) (outcome : ApiOutcome) (hfail : outcome ≠ .ok)
    (hpre : ∀ inc ∈ l, inc.id = incidentId →
      inc.status = "pending" ∧ inc.acknowledged = false ∧
      inc.assigned_user_id = none ∧ inc.assigned_user = none) :
    securityAcknowledge l incidentId outcome = l ∧
    part000HandleAcknowledge l incidentId actorId .respFail = l :=
  ⟨securityAcknowledge_rollback l incidentId outcome hfail
      (fun inc hm hid => ⟨(hpre inc hm hid).1, (hpre inc hm hid).2.1⟩),
    part000_rollback_respFail l incidentId actorId hpre⟩

/-- C1 witness: the amended rollback identities at a concrete pending
incident. -/
theorem acknowledge_rollback_on_failure_witness :
    securityAcknowledge [incC1] 1 .netError = [incC1] ∧
    part000HandleAcknowledge [incC1] 1 (some 7) .respFail = [incC1] :=
  acknowledge_rollback_on_failure [incC1] 1 (some 7) .netError (by decide)
    (by decide)

/-- C2: for any incident set and a security actor, membership in the
concatenation of the three security buckets is exactly membership in the set
together with at least one bucket predicate, and an incident matching two
predicates appears in both buckets (the buckets are independent, not
deduplicated). -/
theorem security_buckets_union (l : List Incident) (actorId : Nat)
    (h0 : actorId ≠ 0) (inc : Incident) :
    (inc ∈ viewerReportsBucket l ++ sosAlertsBucket l ++ assignedBucket l actorId ↔
      inc ∈ l ∧ (descStartsWith inc "[VIEWER REPORT]" = true ∨
        descStartsWith inc "[SOS ALERT]" = true ∨
        inc.assigned_user_id = some actorId)) ∧
    (inc ∈ l → descStartsWith inc "[VIEWER REPORT]" = true →
      inc.assigned_user_id = some actorId →
      inc ∈ viewerReportsBucket l ∧ inc ∈ assignedBucket l actorId) ∧
    (inc ∈ l → descStartsWith inc "[SOS ALERT]" = true →
      inc.assigned_user_id = some actorId →
      inc ∈ sosAlertsBucket l ∧ inc ∈ assignedBucket l actorId) := by
  unfold viewerReportsBucket sosAlertsBucket assignedBucket
  simp only [List.mem_append, List.mem_filter, Bool.and_eq_true, bne_iff_ne,
    ne_eq, beq_iff_eq, h0, not_false_eq_true, true_and]
  generalize descStartsWith inc "[VIEWER REPORT]" = p1
  generalize descStartsWith inc "[SOS ALERT]" = p2
  tauto

/-- C2 witness: a viewer report and an SOS alert, both assigned to actor 7,
each appear in two buckets. -/
theorem security_buckets_union_witness :
    (incC2 ∈ viewerReportsBucket [incC2, incC2s] ∧
      incC2 ∈ assignedBucket [incC2, incC2s] 7) ∧
    (incC2s ∈ sosAlertsBucket [incC2, incC2s] ∧
      incC2s ∈ assignedBucket [incC2, incC2s] 7) :=
  ⟨(security_buckets_union [incC2, incC2s] 7 (by decide) incC2).2.1
      (by decide) (by decide) (by decide),
    (security_buckets_union [incC2, incC2s] 7 (by decide) incC2s).2.2
      (by decide) (by decide) (by decide)⟩

/-- A guarded boolean if-chain of the shape used by `part_004`'s incident
filter. -/
theorem boolGuardChain (a b : Bool) :
    (if a = true then true else if b = true then false else true) = true ↔
      (a = true ∨ b = false) := by
  cases a <;> cases b <;> simp

/-- C3 counterexample: neither viewer filter computes the claimed set — the
backup dashboard shows a `[VIEWER REPORT]` incident on an AI-worker camera
(no description-based exclusion), and `part_004` shows an ordinary incident
on an unowned low-numbered camera (no camera-based restriction). -/
theorem viewer_filter_claim_false :
    backupViewerFilter [] 5 [incC3a] ≠
      claimedViewerVisible [] 5 "alice" 29 [incC3a] ∧
    part004ViewerFilter "alice" [incC3b] ≠
      claimedViewerVisible [] 5 "alice" 29 [incC3b] := by
  constructor
  · decide
  · decide

/-- C3 amended: the two viewer dashboards implement different halves of the
claimed rule. `ViewerDashboardClean_backup` keeps exactly the incidents whose
camera is owned by the viewer or has id at least 29, with no description
rules; `part_004` keeps exactly the SOS alerts whose `User:` field matches a
non-empty username together with every incident not tagged
`[VIEWER REPORT]`, with no camera rules. -/
theorem viewer_filters_characterization (cams : List Camera) (userId : Nat)
    (username : String) (l : List Incident) (inc : Incident) :
    (inc ∈ backupViewerFilter cams userId l ↔
      inc ∈ l ∧ ((ownedCameraIds cams userId).contains (numCameraId inc) = true ∨
        29 ≤ numCameraId inc)) ∧
    (inc ∈ part004ViewerFilter username l ↔
      inc ∈ l ∧ ((descStartsWith inc "[SOS ALERT]" && (username != "") &&
          jsIncludes (inc.description.getD "") ("User: " ++ username)) = true ∨
        descStartsWith inc "[VIEWER REPORT]" = false)) := by
  constructor
  · unfold backupViewerFilter
    simp only [List.mem_filter, Bool.or_eq_true, decide_eq_true_eq]
  · unfold part004ViewerFilter
    simp only [List.mem_filter, boolGuardChain]

/-- C4 counterexample: two rapid invocations of `part_004`'s `handleSOS`
issue two SOS submissions (two created incidents), not one — there is no
latch in that flow. -/
theorem sos_single_fire_claim_false :
    (part004SOSTrigger (part004SOSTrigger initialSOSSession)).submissions = 2 ∧
    ¬((part004SOSTrigger (part004SOSTrigger initialSOSSession)).submissions ≤ 1) := by
  constructor
  · rfl
  · decide

/-- The single-fire invariant of the backup dashboard SOS flow is preserved
by every trigger. -/
theorem backupSOSTrigger_inv (s : SOSSession) (e : Bool)
    (h1 : s.sosSent = false → s.submissions = 0) (h2 : s.submissions ≤ 1) :
    ((backupSOSTrigger s e).sosSent = false →
      (backupSOSTrigger s e).submissions = 0) ∧
      (backupSOSTrigger s e).submissions ≤ 1 := by
  unfold backupSOSTrigger
  by_cases hd : (s.sosDisabled || s.sosSent) = true
  · simp only [hd, if_true]
    exact ⟨h1, h2⟩
  · have hsent : s.sosSent = false := by
      cases hs : s.sosSent with
      | false => rfl
      | true => exact absurd (by simp [hs]) hd
    have hz : s.submissions = 0 := h1 hsent
    simp only [hd, if_false]
    cases e <;> simp [hz]

/-- Folding any trigger sequence keeps the single-fire invariant. -/
theorem backupSOSFold_inv (events : List Bool) (s : SOSSession)
    (h1 : s.sosSent = false → s.submissions = 0) (h2 : s.submissions ≤ 1) :
    ((events.foldl backupSOSTrigger s).sosSent = false →
      (events.foldl backupSOSTrigger s).submissions = 0) ∧
      (events.foldl backupSOSTrigger s).submissions ≤ 1 := by
  induction events generalizing s with
  | nil => exact ⟨h1, h2⟩
  | cons e t ih =>
    simp only [List.foldl_cons]
    obtain ⟨g1, g2⟩ := backupSOSTrigger_inv s e h1 h2
    exact ih (backupSOSTrigger s e) g1 g2

/-- C4 amended: in `ViewerDashboardClean_backup` the latch (`sosSentRef`,
set synchronously before the network call) bounds every session to at most
one SOS submission over any sequence of triggers, while `part_004`'s
`handleSOS` increments the submission count on every invocation, so two
rapid triggers there produce two submissions. -/
theorem sos_single_fire (events : List Bool) :
    (backupSOSRun events).submissions ≤ 1 ∧
    (∀ s : SOSSession, (part004SOSTrigger (part004SOSTrigger s)).submissions =
      s.submissions + 2) := by
  constructor
  · exact (backupSOSFold_inv events initialSOSSession (fun _ => rfl)
      (by decide)).2
  · intro s
    rfl

/-- Filtering the image of a map is mapping the filtered preimage. -/
theorem filterMapComm {α β : Type} (f : α → β) (p : β → Bool) (l : List α) :
    (l.map f).filter p = (l.filter (fun a => p (f a))).map f := by
  induction l with
  | nil => rfl
  | cons a t ih =>
    by_cases h : p (f a) = true <;> simp [List.filter_cons, h, ih]

/-- A filter and its complement partition the length of a list. -/
theorem filterLengthPartition {α : Type} (p : α → Bool) (l : List α) :
    (l.filter p).length + (l.filter (fun a => !(p a))).length = l.length := by
  induction l with
  | nil => rfl
  | cons a t ih =>
    by_cases h : p a = true
    · simp only [List.filter_cons, h, if_true, Bool.not_eq_true]
      simp [h, List.length_cons]
      omega
    · simp only [List.filter_cons, h]
      simp [h, eq_false_of_ne_true h, List.length_cons]
      omega

/-- C5: for every non-empty selection and chosen security user, `submit`
reports the succeeded and failed notify results as two separate lists — the
succeeded list is exactly the notify results of the incidents whose call
succeeded and the failed list exactly those whose call failed, the two
partition the fan-out — and the flow counts as a success exactly when at
least one assignment succeeded. -/
theorem grant_submit_partial_failure (sel : List (Nat × Bool)) (u : Nat)
    (notify : Nat → NotifyResult) (hne : selectedIds sel ≠ []) :
    grantSubmit sel (some u) notify =
      .report ((selectedIds sel).map notify)
        (((selectedIds sel).filter (fun i => (notify i).success)).map notify)
        (((selectedIds sel).filter (fun i => !((notify i).success))).map notify)
        (decide (∃ i ∈ selectedIds sel, (notify i).success = true)) ∧
    ((selectedIds sel).filter (fun i => (notify i).success)).length +
      ((selectedIds sel).filter (fun i => !((notify i).success))).length =
      (selectedIds sel).length := by
  have hsucc : ((selectedIds sel).map notify).filter (fun r => r.success) =
      ((selectedIds sel).filter (fun i => (notify i).success)).map notify :=
    filterMapComm notify (fun r => r.success) (selectedIds sel)
  have hfail : ((selectedIds sel).map notify).filter (fun r => !r.success) =
      ((selectedIds sel).filter (fun i => !((notify i).success))).map notify :=
    filterMapComm notify (fun r => !r.success) (selectedIds sel)
  have hov : decide (0 < (((selectedIds sel).map notify).filter
        (fun r => r.success)).length) =
      decide (∃ i ∈ selectedIds sel, (notify i).success = true) := by
    apply decide_eq_decide.mpr
    rw [hsucc, List.length_map, List.length_pos_iff_exists_mem]
    simp [List.mem_filter]
  have hgs : grantSubmit sel (some u) notify =
      .report ((selectedIds sel).map notify)
        (((selectedIds sel).map notify).filter (fun r => r.success))
        (((selectedIds sel).map notify).filter (fun r => !r.success))
        (decide (0 < (((selectedIds sel).map notify).filter
          (fun r => r.success)).length)) := by
    unfold grantSubmit
    rw [if_neg hne]
  refine ⟨?_, filterLengthPartition (fun i => (notify i).success) (selectedIds sel)⟩
  rw [hgs, hov, hsucc, hfail]

/-- C5 witness: with incidents 1, 2, 3 selected and the notify call for
incident 2 failing, the report carries two succeeded results and one failed
result, the succeeded incidents are exactly 1 and 3, the failed incident is
exactly 2, and the flow succeeds. -/
theorem grant_submit_partial_failure_witness :
    grantSubmit [(1, true), (2, true), (3, true)] (some 9) notifyC5 =
      .report [⟨true, "already reassigned"⟩, ⟨false, "already reassigned"⟩,
          ⟨true, "already reassigned"⟩]
        [⟨true, "already reassigned"⟩, ⟨true, "already reassigned"⟩]
        [⟨false, "already reassigned"⟩] true ∧
    (selectedIds [(1, true), (2, true), (3, true)]).filter
        (fun i => (notifyC5 i).success) = [1, 3] ∧
    (selectedIds [(1, true), (2, true), (3, true)]).filter
        (fun i => !((notifyC5 i).success)) = [2] := by
  refine ⟨?_, by decide, by decide⟩
  have h := (grant_submit_partial_failure [(1, true), (2, true), (3, true)] 9
    notifyC5 (by decide)).1
  rw [h]
  decide

/-- C6: the role gate of `handleVerifyEvidence` rejects a security actor
before the `verifyEvidence` network call is reached, and for an admin or
viewer actor an evidence item with no blockchain hash short-circuits to the
`Not on Blockchain` display state with the verify button never rendered, so
the verify endpoint cannot be invoked for it from this screen. -/
theorem evidence_verify_gating (userRole : Option String) (item : Evidence)
    (hrole : canVerify userRole = true)
    (hhash : jsTruthyStr item.blockchain_tx_hash = false) :
    handleVerifyGate (some "security") = .permissionDenied ∧
    verifyNetworkCalled (some "security") = false ∧
    getVerificationBadge item = .notOnBlockchain ∧
    verifyButtonShown userRole item = false := by
  refine ⟨rfl, rfl, ?_, ?_⟩
  · unfold getVerificationBadge
    rw [hhash]
    rfl
  · unfold verifyButtonShown
    rw [hrole, hhash]
    rfl

/-- C6 witness: the gate at the security role, and the short-circuit for a
viewer looking at un-anchored evidence. -/
theorem evidence_verify_gating_witness :
    handleVerifyGate (some "security") = .permissionDenied ∧
    verifyNetworkCalled (some "security") = false ∧
    getVerificationBadge evC6 = .notOnBlockchain ∧
    verifyButtonShown (some "viewer") evC6 = false :=
  evidence_verify_gating (some "viewer") evC6 (by decide) (by decide)

/-- C7 counterexample: after a verification observes TAMPERED, a list
refresh whose server data still carries the stale PENDING status replaces
the displayed list wholesale, clobbering the observed result. -/
theorem verify_precedence_claim_false :
    (applyEvidenceFetch (applySecureVerify [evC7] 1 "TAMPERED") [evC7]).map
      Evidence.verification_status = [some "PENDING"] ∧
    (applySecureVerify [evC7] 1 "TAMPERED").map Evidence.verification_status =
      [some "TAMPERED"] := by
  constructor
  · rfl
  · decide

/-- C7 amended: a completed verification immediately overwrites the matching
item's cached status in local state, but `fetchEvidence` replaces the
displayed list wholesale with the server response, so the observed result
survives only until the next list fetch — there is no session-long
precedence of observed results over stale list data. -/
theorem verify_overrides_until_refresh (l : List Evidence) (evidenceId : Nat)
    (newStatus : String) :
    (∀ ev ∈ applySecureVerify l evidenceId newStatus, ev.id = evidenceId →
      ev.verification_status = some newStatus ∧
        ev.tamper_status = some newStatus) ∧
    (∀ current server : List Evidence,
      applyEvidenceFetch current server = server) := by
  constructor
  · intro ev hev hid
    unfold applySecureVerify at hev
    rw [List.mem_map] at hev
    obtain ⟨a, ha, heq⟩ := hev
    by_cases hida : a.id = evidenceId
    · rw [if_pos hida] at heq
      cases heq
      exact ⟨rfl, rfl⟩
    · rw [if_neg hida] at heq
      cases heq
      exact absurd hid hida
  · intro current server
    rfl

/-- C7 witness: the immediate override at a concrete item. -/
theorem verify_overrides_until_refresh_witness :
    evC7t.verification_status = some "TAMPERED" ∧
    evC7t.tamper_status = some "TAMPERED" :=
  (verify_overrides_until_refresh [evC7] 1 "TAMPERED").1 evC7t (by decide)
    (by decide)

/-- The acknowledged-merge fold keeps every accumulated incident
status/acknowledged-consistent. -/
theorem mergeFetchFold_inv (data : List Incident) (st : List Nat × List Incident)
    (hacc : ∀ i ∈ st.2, ackConsistent i) (hdata : ∀ i ∈ data, ackConsistent i) :
    ∀ i ∈ (data.foldl mergeFetchStep st).2, ackConsistent i := by
  induction data generalizing st with
  | nil => exact hacc
  | cons a t ih =>
    simp only [List.foldl_cons]
    apply ih
    · intro i hi
      unfold mergeFetchStep at hi
      by_cases h1 : st.1.contains a.id = true
      · rw [if_pos h1] at hi
        rcases List.mem_append.mp hi with hl | hr
        · exact hacc i hl
        · rw [List.mem_singleton.mp hr]
          unfold ackConsistent
          simp
      · rw [if_neg h1] at hi
        by_cases h2 : (a.acknowledged || a.status == "acknowledged") = true
        · rw [if_pos h2] at hi
          rcases List.mem_append.mp hi with hl | hr
          · exact hacc i hl
          · rw [List.mem_singleton.mp hr]
            exact hdata a (List.mem_cons_self a t)
        · rw [if_neg h2] at hi
          rcases List.mem_append.mp hi with hl | hr
          · exact hacc i hl
          · rw [List.mem_singleton.mp hr]
            exact hdata a (List.mem_cons_self a t)
    · intro i hi
      exact hdata i (List.mem_cons_of_mem a hi)

/-- C8: each local state update of the security dashboard — the optimistic
acknowledge, the failure rollback, and the acknowledged-merge applied to a
fetched list — carries lists satisfying the invariant
`status = 'acknowledged' ⟺ acknowledged = true` to lists satisfying it. -/
theorem local_updates_preserve_invariant (l : List Incident) (incidentId : Nat)
    (ackRef : List Nat) (h : ∀ inc ∈ l, ackConsistent inc) :
    (∀ inc ∈ ackOptimistic l incidentId, ackConsistent inc) ∧
    (∀ inc ∈ ackRevert l incidentId, ackConsistent inc) ∧
    (∀ inc ∈ (mergeFetch ackRef l).2, ackConsistent inc) := by
  refine ⟨?_, ?_, ?_⟩
  · intro inc hm
    unfold ackOptimistic at hm
    rw [List.mem_map] at hm
    obtain ⟨a, ha, heq⟩ := hm
    by_cases hid : a.id = incidentId
    · rw [if_pos hid] at heq
      cases heq
      unfold ackConsistent
      simp
    · rw [if_neg hid] at heq
      exact heq ▸ h a ha
  · intro inc hm
    unfold ackRevert at hm
    rw [List.mem_map] at hm
    obtain ⟨a, ha, heq⟩ := hm
    by_cases hid : a.id = incidentId
    · rw [if_pos hid] at heq
      cases heq
      unfold ackConsistent
      simp
    · rw [if_neg hid] at heq
      exact heq ▸ h a ha
  · exact mergeFetchFold_inv l (ackRef, []) (by intro i hi; cases hi) h

/-- C8 witness: the invariant after the optimistic update of a concrete
pending incident. -/
theorem local_updates_preserve_invariant_witness :
    ackConsistent { incC1 with acknowledged := true, status := "acknowledged" } :=
  (local_updates_preserve_invariant [incC1] 1 [] (by decide)).1 _ (by decide)

/-- Merging a response with no acknowledged incidents against an empty
acknowledged set appends it unchanged. -/
theorem mergeFetch_unacked (data acc : List Incident)
    (h : ∀ inc ∈ data, inc.acknowledged = false ∧ inc.status ≠ "acknowledged") :
    data.foldl mergeFetchStep ([], acc) = ([], acc ++ data) := by
  induction data generalizing acc with
  | nil => simp
  | cons a t ih =>
    obtain ⟨h1, h2⟩ := h a (List.mem_cons_self a t)
    have hstep : mergeFetchStep ([], acc) a = ([], acc ++ [a]) := by
      unfold mergeFetchStep
      rw [if_neg (by simp), if_neg (by simp [h1, h2])]
    simp only [List.foldl_cons]
    rw [hstep, ih (acc ++ [a]) (fun i hi => h i (List.mem_cons_of_mem a hi))]
    simp

/-- C9 counterexample: no sequence numbers exist — refresh B (data
`[incC9]`) resolves first, then the stale refresh A (empty data) resolves
and its response becomes the displayed list, so the final list reflects A,
not B. -/
theorem stale_discard_claim_false :
    (applyFetch (applyFetch ⟨[], []⟩ [incC9]) []).display = [] ∧
    (applyFetch ⟨[], []⟩ [incC9]).display = [incC9] ∧
    ([] : List Incident) ≠ [incC9] := by
  refine ⟨rfl, by decide, by decide⟩

/-- C9 amended: each resolving refresh unconditionally becomes the displayed
list (after the acknowledged-merge); overlapping refreshes are resolved
last-write-wins in resolution order, so with an empty acknowledged set and
unacknowledged response data, after B then A resolve the display is exactly
A's data — the opposite of the claimed sequence-number discard rule. -/
theorem last_resolved_fetch_wins (s : FetchState) (dB dA : List Incident)
    (h0 : s.ackRef = [])
    (hB : ∀ inc ∈ dB, inc.acknowledged = false ∧ inc.status ≠ "acknowledged")
    (hA : ∀ inc ∈ dA, inc.acknowledged = false ∧ inc.status ≠ "acknowledged") :
    (applyFetch (applyFetch s dB) dA).display = dA := by
  have hBstep : applyFetch s dB = ⟨[], dB⟩ := by
    unfold applyFetch mergeFetch
    rw [h0, mergeFetch_unacked dB [] hB]
    rfl
  rw [hBstep]
  unfold applyFetch mergeFetch
  rw [mergeFetch_unacked dA [] hA]
  rfl

/-- C9 witness: the last-resolved response wins at concrete data. -/
theorem last_resolved_fetch_wins_witness :
    (applyFetch (applyFetch ⟨[], []⟩ [incC9]) [incC9b]).display = [incC9b] :=
  last_resolved_fetch_wins ⟨[], []⟩ [incC9] [incC9b] rfl (by decide) (by decide)

/-- C10: in the admin acknowledgement screen the action button is labelled
Revoke exactly when the incident reads as acknowledged, yet pressing it
always issues the backend update with `acknowledged = true` through
`acknowledgeIncident`; the client never sends `acknowledged = false` from
this screen, so the Revoke action cannot move an incident back to pending. -/
theorem admin_ack_button_always_sets_acknowledged (inc : Incident) :
    adminAckAction inc = ⟨inc.id, true⟩ ∧
    (adminAckAction inc).acknowledged = true ∧
    (adminAckLabel inc = "Revoke" ↔
      (inc.status = "acknowledged" ∨ inc.acknowledged = true)) := by
  refine ⟨rfl, rfl, ?_⟩
  unfold adminAckLabel
  split
  · next h => exact iff_of_true rfl h
  · next h => exact iff_of_false (by decide) h

end AiCctv
